import Mathlib

/-!
Verification of the quote/level state machine, trade decision rule and
position ledger of `tick_taker.py` (alpacahq/example-hftish).

Shallow embedding conventions:
* Python floats (prices, the 1.8 imbalance ratio, Timedelta arithmetic) are
  modelled as exact rationals `ℚ`; timestamps are integers counting
  milliseconds, so the 50ms debounce window is `+ 50`.
* Python `round(x, n)` is modelled by `roundTo n` on `ℚ` (round to nearest;
  the half-to-even tie rule of CPython is irrelevant at the values compared
  against 0.01 here).
* Python dictionaries keyed by strings are association lists; `KeyError` is
  an `Except.error`.
* CPython reference semantics matter for `Quote`: `get_symbol_dict` stores
  the object `self.default_dict` itself (no copy) under new symbols, so the
  heap of allocated dict objects is modelled explicitly (`Quote.heap`) and
  the per-symbol table stores references into it.  The only dict ever
  allocated is `default_dict`, at reference 0.
* The order gateway (`api.submit_order` / `api.cancel_order`) is external;
  its outcome is passed to `on_trade` as a `GatewayOutcome`.  The Python
  `try` block means: on `submitFail` nothing after the submit runs, on
  `cancelFail` nothing after the cancel runs (both exceptions are caught).
-/

namespace TickTaker

/-- Python `round(x, n)` on exact rationals. -/
def roundTo (n : ℕ) (x : ℚ) : ℚ := ((round (x * (10 : ℚ) ^ n) : ℤ) : ℚ) / (10 : ℚ) ^ n

/-- The per-symbol quote dictionary of `Quote` (`tick_taker.py` lines 21-33).
`traded` is the flag the spec calls `eligible`, with opposite polarity:
the symbol is eligible to trade exactly when `traded = false`. -/
structure SymbolDict where
  prev_bid : ℚ
  prev_ask : ℚ
  prev_spread : ℚ
  bid : ℚ
  ask : ℚ
  bid_size : ℤ
  ask_size : ℤ
  spread : ℚ
  traded : Bool
  level_ct : ℤ
  time : ℤ
deriving DecidableEq, Repr

/-- `Quote.default_dict` (lines 21-33). -/
def default_dict : SymbolDict :=
  { prev_bid := 0
    prev_ask := 0
    prev_spread := 0
    bid := 0
    ask := 0
    bid_size := 0
    ask_size := 0
    spread := 0
    traded := true
    level_ct := 1
    time := 0 }

/-- A quote event (`data` of `on_quote`). -/
structure QuoteData where
  symbol : String
  bidprice : ℚ
  askprice : ℚ
  bidsize : ℤ
  asksize : ℤ
  timestamp : ℤ
deriving DecidableEq, Repr

/-- `Quote.reset_dict` (lines 49-53). -/
def reset_dict (d : SymbolDict) : SymbolDict :=
  { d with traded := false, level_ct := d.level_ct + 1 }

/-- The level-change test of `Quote.update` (lines 65-69).  The source
evaluates it after writing the sizes, but the test only reads `bid`/`ask`,
which the size writes do not touch. -/
def level_change_cond (d : SymbolDict) (q : QuoteData) : Prop :=
  d.bid ≠ q.bidprice ∧ d.ask ≠ q.askprice ∧
    roundTo 2 (q.askprice - q.bidprice) = 1 / 100

instance (d : SymbolDict) (q : QuoteData) : Decidable (level_change_cond d q) := by
  unfold level_change_cond; infer_instance

/-- The effect of `Quote.update` (lines 55-90) on the symbol's dict. -/
def quote_update_dict (d : SymbolDict) (q : QuoteData) : SymbolDict :=
  if level_change_cond d q then
    let d2 : SymbolDict :=
      { d with
        bid_size := q.bidsize
        ask_size := q.asksize
        prev_bid := d.bid
        prev_ask := d.ask
        bid := q.bidprice
        ask := q.askprice
        time := q.timestamp }
    let d3 : SymbolDict :=
      { d2 with
        prev_spread := roundTo 3 (d2.prev_ask - d2.prev_bid)
        spread := roundTo 3 (d2.ask - d2.bid) }
    if d3.prev_spread = 1 / 100 then reset_dict d3 else d3
  else
    { d with bid_size := q.bidsize, ask_size := q.asksize }

/-- The `Quote` tracker.  `heap` holds the dict objects ever allocated
(only `default_dict`, at reference `defaultRef = 0`); `symbol_dict` maps a
symbol to the reference of its dict object.  `get_symbol_dict` stores the
reference of `self.default_dict` itself under a new symbol (line 40-41 do
not copy), so distinct symbols can alias one object. -/
structure Quote where
  heap : List SymbolDict
  defaultRef : ℕ
  symbol_dict : List (String × ℕ)
deriving DecidableEq, Repr

/-- `Quote.__init__` (lines 19-33). -/
def Quote.start : Quote := { heap := [default_dict], defaultRef := 0, symbol_dict := [] }

/-- Reference stored for a symbol, if registered. -/
def lookupSym (q : Quote) (s : String) : Option ℕ :=
  (q.symbol_dict.find? (fun p => p.1 == s)).map (fun p => p.2)

/-- `Quote.get_symbol_dict` (lines 35-43): returns the symbol's reference,
registering the reference of `default_dict` if the symbol is new. -/
def get_symbol_ref (q : Quote) (s : String) : Quote × ℕ :=
  match lookupSym q s with
  | some r => (q, r)
  | none => ({ q with symbol_dict := (s, q.defaultRef) :: q.symbol_dict }, q.defaultRef)

/-- Dereference a dict object. -/
def readDict (q : Quote) (r : ℕ) : SymbolDict := q.heap.getD r default_dict

/-- In-place mutation of a dict object. -/
def writeDict (q : Quote) (r : ℕ) (d : SymbolDict) : Quote :=
  { q with heap := q.heap.set r d }

/-- `Quote.update` (lines 55-90) at the tracker level. -/
def quote_update (q : Quote) (data : QuoteData) : Quote :=
  let pr := get_symbol_ref q data.symbol
  writeDict pr.1 pr.2 (quote_update_dict (readDict pr.1 pr.2) data)

/-- The view the spec takes of a symbol: its dict, when registered. -/
def symState (q : Quote) (s : String) : Option SymbolDict :=
  (lookupSym q s).map (readDict q)

/-- The spec's per-symbol `eligible` flag: negation of `traded`. -/
def eligibleOf (q : Quote) (s : String) : Option Bool :=
  (lookupSym q s).map (fun r => !(readDict q r).traded)

/-- `Position.__init__` state (lines 102-106). -/
structure Position where
  orders_filled_amount : List (String × ℤ)
  pending_buy_shares : ℤ
  pending_sell_shares : ℤ
  total_shares : ℤ
deriving DecidableEq, Repr

def Position.start : Position :=
  { orders_filled_amount := []
    pending_buy_shares := 0
    pending_sell_shares := 0
    total_shares := 0 }

/-- Python dict lookup on the order ledger. -/
def ledger_find (l : List (String × ℤ)) (id : String) : Option ℤ :=
  (l.find? (fun p => p.1 == id)).map (fun p => p.2)

/-- Python dict assignment `l[id] = amt`. -/
def ledger_set (l : List (String × ℤ)) (id : String) (amt : ℤ) : List (String × ℤ) :=
  (id, amt) :: l.filter (fun p => !(p.1 == id))

/-- Python `del l[id]`. -/
def ledger_erase (l : List (String × ℤ)) (id : String) : List (String × ℤ) :=
  l.filter (fun p => !(p.1 == id))

/-- `Position.update_pending_buy_shares` (lines 108-109). -/
def update_pending_buy_shares (p : Position) (quantity : ℤ) : Position :=
  { p with pending_buy_shares := p.pending_buy_shares + quantity }

/-- `Position.update_pending_sell_shares` (lines 111-112). -/
def update_pending_sell_shares (p : Position) (quantity : ℤ) : Position :=
  { p with pending_sell_shares := p.pending_sell_shares + quantity }

/-- `Position.update_total_shares` (lines 133-134). -/
def update_total_shares (p : Position) (quantity : ℤ) : Position :=
  { p with total_shares := p.total_shares + quantity }

/-- `Position.update_filled_amount` (lines 114-123).  The first line of the
method is the ledger lookup, which raises `KeyError` for an unknown id. -/
def update_filled_amount (p : Position) (order_id : String) (new_amount : ℤ)
    (side : String) : Except String Position :=
  match ledger_find p.orders_filled_amount order_id with
  | none => Except.error "KeyError"
  | some old_amount =>
    if old_amount < new_amount then
      let p1 : Position :=
        if side = "buy" then
          update_total_shares (update_pending_buy_shares p (old_amount - new_amount))
            (new_amount - old_amount)
        else
          update_total_shares (update_pending_sell_shares p (old_amount - new_amount))
            (old_amount - new_amount)
      Except.ok { p1 with
        orders_filled_amount := ledger_set p1.orders_filled_amount order_id new_amount }
    else Except.ok p

/-- `Position.remove_pending_order` (lines 125-131).  The first line is the
ledger lookup, which raises `KeyError` for an unknown id. -/
def remove_pending_order (p : Position) (order_id : String) (side : String) :
    Except String Position :=
  match ledger_find p.orders_filled_amount order_id with
  | none => Except.error "KeyError"
  | some old_amount =>
    let p1 : Position :=
      if side = "buy" then update_pending_buy_shares p (old_amount - 100)
      else update_pending_sell_shares p (old_amount - 100)
    Except.ok { p1 with
      orders_filled_amount := ledger_erase p1.orders_filled_amount order_id }

/-- An order-update event (`data` of `on_trade_updates`). -/
structure OrderUpdateData where
  event : String
  order_id : String
  side : String
  filled_qty : ℤ
deriving DecidableEq, Repr

/-- `on_trade_updates` (lines 238-263).  The second component is the
uncaught Python exception, if any: for a `fill` event the
`update_total_shares` call precedes the failing ledger lookup, so its
mutation survives the exception. -/
def on_trade_updates (p : Position) (d : OrderUpdateData) : Position × Option String :=
  if d.event = "fill" then
    let p1 : Position :=
      if d.side = "buy" then update_total_shares p d.filled_qty
      else update_total_shares p (-1 * d.filled_qty)
    match remove_pending_order p1 d.order_id d.side with
    | Except.ok p2 => (p2, none)
    | Except.error e => (p1, some e)
  else if d.event = "partial_fill" then
    match update_filled_amount p d.order_id d.filled_qty d.side with
    | Except.ok p2 => (p2, none)
    | Except.error e => (p, some e)
  else if d.event = "canceled" ∨ d.event = "rejected" then
    match remove_pending_order p d.order_id d.side with
    | Except.ok p2 => (p2, none)
    | Except.error e => (p, some e)
  else (p, none)

/-- A trade event (`data` of `on_trade`). -/
structure TradeData where
  symbol : String
  price : ℚ
  size : ℤ
  timestamp : ℤ
deriving DecidableEq, Repr

/-- Outcome of the external submit/cancel pair inside the `try` block of
`on_trade`: both succeed, the submit raises, or the cancel raises (after a
successful submit of order `order_id`). -/
inductive GatewayOutcome where
  | ok (order_id : String)
  | submitFail
  | cancelFail (order_id : String)
deriving DecidableEq, Repr

/-- A submit call made by `on_trade`: side, the fixed 100-share lot, and
the limit price. -/
structure OrderAttempt where
  side : String
  qty : ℤ
  limit_price : ℚ
deriving DecidableEq, Repr

/-- Result of one `on_trade` call: the tracker, the position, and the
submit call that was issued (if any). -/
structure TradeResult where
  quote : Quote
  position : Position
  attempt : Option OrderAttempt
deriving DecidableEq, Repr

/-- Buy gate of `on_trade` (lines 193-199): trade at the ask, bid-side
depth dominance (`1.8` modelled exactly), room under the cap. -/
def buy_cond (sd : SymbolDict) (pos : Position) (max_shares : ℤ) (d : TradeData) : Prop :=
  d.price = sd.ask ∧ (sd.ask_size : ℚ) * (9 / 5) < (sd.bid_size : ℚ) ∧
    pos.total_shares + pos.pending_buy_shares < max_shares - 100

instance (sd : SymbolDict) (pos : Position) (max_shares : ℤ) (d : TradeData) :
    Decidable (buy_cond sd pos max_shares d) := by
  unfold buy_cond; infer_instance

/-- Sell gate of `on_trade` (lines 215-221). -/
def sell_cond (sd : SymbolDict) (pos : Position) (d : TradeData) : Prop :=
  d.price = sd.bid ∧ (sd.bid_size : ℚ) * (9 / 5) < (sd.ask_size : ℚ) ∧
    (100 : ℤ) ≤ pos.total_shares - pos.pending_sell_shares

instance (sd : SymbolDict) (pos : Position) (d : TradeData) :
    Decidable (sell_cond sd pos d) := by
  unfold sell_cond; infer_instance

/-- The ledger registration performed after a successful submit+cancel
(lines 209-210 and 231-232): bump the side's pending counter by the fixed
100-share lot and create the order's ledger entry with 0 filled. -/
def register_order (p : Position) (oid : String) (side : String) : Position :=
  let p1 : Position :=
    if side = "buy" then update_pending_buy_shares p 100
    else update_pending_sell_shares p 100
  { p1 with orders_filled_amount := ledger_set p1.orders_filled_amount oid 0 }

/-- `on_trade` (lines 173-236).  The gateway outcome decides how far the
`try` block runs: on `ok oid` the pending/ledger/`traded` updates all run;
on `submitFail` and `cancelFail` the raised exception skips them (it is
caught by the `except` clause).  The `attempt` component records the submit
call that was issued, whatever its outcome. -/
def on_trade (q : Quote) (pos : Position) (max_shares : ℤ) (gw : GatewayOutcome)
    (d : TradeData) : TradeResult :=
  let pr := get_symbol_ref q d.symbol
  let q1 := pr.1
  let r := pr.2
  let sd := readDict q1 r
  if sd.traded then ⟨q1, pos, none⟩
  else if d.timestamp ≤ sd.time + 50 then ⟨q1, pos, none⟩
  else if 100 ≤ d.size then
    if buy_cond sd pos max_shares d then
      match gw with
      | GatewayOutcome.ok oid =>
          ⟨writeDict q1 r { sd with traded := true }, register_order pos oid "buy",
            some ⟨"buy", 100, sd.ask⟩⟩
      | GatewayOutcome.submitFail => ⟨q1, pos, some ⟨"buy", 100, sd.ask⟩⟩
      | GatewayOutcome.cancelFail _ => ⟨q1, pos, some ⟨"buy", 100, sd.ask⟩⟩
    else if sell_cond sd pos d then
      match gw with
      | GatewayOutcome.ok oid =>
          ⟨writeDict q1 r { sd with traded := true }, register_order pos oid "sell",
            some ⟨"sell", 100, sd.bid⟩⟩
      | GatewayOutcome.submitFail => ⟨q1, pos, some ⟨"sell", 100, sd.bid⟩⟩
      | GatewayOutcome.cancelFail _ => ⟨q1, pos, some ⟨"sell", 100, sd.bid⟩⟩
    else ⟨q1, pos, none⟩
  else ⟨q1, pos, none⟩

/-- One event of the stream driving the handlers of `run`. -/
inductive Event where
  | quote (d : QuoteData)
  | trade (d : TradeData) (gw : GatewayOutcome)
  | orderUpdate (d : OrderUpdateData)
deriving DecidableEq, Repr

/-- Whole-program state: the `quote` tracker and the `position` ledger. -/
structure SysState where
  quote : Quote
  position : Position
deriving DecidableEq, Repr

def SysState.start : SysState := ⟨Quote.start, Position.start⟩

/-- Dispatch of one stream event to its handler. -/
def step (max_shares : ℤ) (s : SysState) (e : Event) : SysState :=
  match e with
  | Event.quote d => ⟨quote_update s.quote d, s.position⟩
  | Event.trade d gw =>
      let res := on_trade s.quote s.position max_shares gw d
      ⟨res.quote, res.position⟩
  | Event.orderUpdate d => ⟨s.quote, (on_trade_updates s.position d).1⟩

/-- Run a finite stream of events. -/
def run_events (max_shares : ℤ) (s : SysState) (es : List Event) : SysState :=
  es.foldl (step max_shares) s

/-- The pending counter of the side named by `side`, with the convention of
`update_filled_amount` and `remove_pending_order`: any side other than
`"buy"` uses the sell counter. -/
def pendingSide (p : Position) (side : String) : ℤ :=
  if side = "buy" then p.pending_buy_shares else p.pending_sell_shares

/-- A sequence of `partial_fill` events for one order. -/
def pfill_events (oid side : String) (qtys : List ℤ) : List OrderUpdateData :=
  qtys.map (fun x => ⟨"partial_fill", oid, side, x⟩)

/-- Apply a list of order-update events to the ledger. -/
def apply_updates (p : Position) (ds : List OrderUpdateData) : Position :=
  ds.foldl (fun p d => (on_trade_updates p d).1) p

/-! Concrete data used by the counterexamples and witnesses below. -/

/-- A symbol dict as it stands right after a qualifying level change from a
one-penny level: `10.00/10.01 → 10.01/10.02`, bid-heavy book, re-armed. -/
def armed_dict : SymbolDict :=
  { prev_bid := 10
    prev_ask := 10.01
    prev_spread := 1 / 100
    bid := 10.01
    ask := 10.02
    bid_size := 300
    ask_size := 100
    spread := 1 / 100
    traded := false
    level_ct := 2
    time := 1000 }

/-- A tracker holding `armed_dict` for symbol `"A"`. -/
def armed_quote : Quote :=
  { heap := [armed_dict], defaultRef := 0, symbol_dict := [("A", 0)] }

/-- A large trade at the ask of `armed_dict`, 100ms after the level change. -/
def big_trade : TradeData := ⟨"A", 10.02, 150, 1100⟩

/-- Quote stream for the C1 scenario: two qualifying level changes for `"A"`
(the second re-arms trading), then a non-qualifying quote for `"B"` that
lazily registers `"B"`. -/
def c1_events : List Event :=
  [Event.quote ⟨"A", 10, 10.01, 300, 100, 900⟩,
   Event.quote ⟨"A", 10.01, 10.02, 300, 100, 1000⟩,
   Event.quote ⟨"B", 10.02, 10.04, 300, 100, 1001⟩]

/-- A trade for `"A"` that passes every gate, with a successful submit. -/
def c1_trade : Event := Event.trade ⟨"A", 10.02, 150, 1100⟩ (GatewayOutcome.ok "o1")

/-- C4 scenario: a qualifying quote for `"A"`, then a non-qualifying quote
for `"B"` (registers `"B"`), giving the state before the probe event. -/
def c4_pre : Quote :=
  quote_update (quote_update Quote.start ⟨"A", 10, 10.01, 300, 100, 900⟩)
    ⟨"B", 10.02, 10.04, 200, 150, 950⟩

/-- The C4 probe: one more qualifying quote, for `"A"` only. -/
def c4_probe : QuoteData := ⟨"A", 10.01, 10.02, 300, 100, 1000⟩

def c4_post : Quote := quote_update c4_pre c4_probe

/-- A tracker mutated by one qualifying quote for `"A"`; no other symbol has
been seen yet. -/
def c5_mut : Quote := quote_update Quote.start ⟨"A", 10, 10.01, 300, 100, 900⟩

/-- A position holding one registered buy order `"o1"` with 40 shares
already recorded as filled (pending 100 - 40 = 60). -/
def c7_pos : Position := ⟨[("o1", 40)], 60, 0, 40⟩

/-! Helper lemmas about the ledger association list. -/

lemma find?_filter_not (l : List (String × ℤ)) (id : String) :
    (l.filter (fun p => !(p.1 == id))).find? (fun p => p.1 == id) = none := by
  induction l with
  | nil => rfl
  | cons a tl ih =>
    by_cases h : (a.1 == id) = true
    · simp [List.filter_cons, h, ih]
    · have h2 : (a.1 == id) = false := by simpa using h
      simp [List.filter_cons, h2, List.find?_cons, ih]

lemma ledger_find_erase (l : List (String × ℤ)) (id : String) :
    ledger_find (ledger_erase l id) id = none := by
  simp [ledger_find, ledger_erase, find?_filter_not]

lemma ledger_find_set (l : List (String × ℤ)) (id : String) (amt : ℤ) :
    ledger_find (ledger_set l id amt) id = some amt := by
  simp [ledger_find, ledger_set, List.find?_cons]

/-! Unfolding lemmas for `on_trade_updates` at each event kind. -/

lemma update_filled_amount_found_buy (p : Position) (id : String) (old qty : ℤ)
    (h : ledger_find p.orders_filled_amount id = some old) :
    update_filled_amount p id qty "buy" =
      (if old < qty then
        Except.ok ⟨ledger_set p.orders_filled_amount id qty,
          p.pending_buy_shares + (old - qty), p.pending_sell_shares,
          p.total_shares + (qty - old)⟩
      else Except.ok p) := by
  unfold update_filled_amount
  rw [h]
  rfl

lemma update_filled_amount_found_sell (p : Position) (id side : String) (old qty : ℤ)
    (hs : ¬ side = "buy") (h : ledger_find p.orders_filled_amount id = some old) :
    update_filled_amount p id qty side =
      (if old < qty then
        Except.ok ⟨ledger_set p.orders_filled_amount id qty,
          p.pending_buy_shares, p.pending_sell_shares + (old - qty),
          p.total_shares + (old - qty)⟩
      else Except.ok p) := by
  unfold update_filled_amount
  rw [h]
  dsimp only []
  simp only [if_neg hs]
  rfl

lemma update_filled_amount_missing (p : Position) (id side : String) (qty : ℤ)
    (h : ledger_find p.orders_filled_amount id = none) :
    update_filled_amount p id qty side = Except.error "KeyError" := by
  unfold update_filled_amount
  rw [h]

lemma remove_pending_order_found_buy (p : Position) (id : String) (old : ℤ)
    (h : ledger_find p.orders_filled_amount id = some old) :
    remove_pending_order p id "buy" =
      Except.ok ⟨ledger_erase p.orders_filled_amount id,
        p.pending_buy_shares + (old - 100), p.pending_sell_shares, p.total_shares⟩ := by
  unfold remove_pending_order
  rw [h]
  rfl

lemma remove_pending_order_found_sell (p : Position) (id side : String) (old : ℤ)
    (hs : ¬ side = "buy") (h : ledger_find p.orders_filled_amount id = some old) :
    remove_pending_order p id side =
      Except.ok ⟨ledger_erase p.orders_filled_amount id,
        p.pending_buy_shares, p.pending_sell_shares + (old - 100), p.total_shares⟩ := by
  unfold remove_pending_order
  rw [h]
  dsimp only []
  simp only [if_neg hs]
  rfl

lemma remove_pending_order_missing (p : Position) (id side : String)
    (h : ledger_find p.orders_filled_amount id = none) :
    remove_pending_order p id side = Except.error "KeyError" := by
  unfold remove_pending_order
  rw [h]

lemma on_trade_updates_fill (p : Position) (id side : String) (qty : ℤ) :
    on_trade_updates p ⟨"fill", id, side, qty⟩ =
      (match remove_pending_order
          (if side = "buy" then update_total_shares p qty
           else update_total_shares p (-1 * qty)) id side with
       | Except.ok p2 => (p2, none)
       | Except.error e =>
          ((if side = "buy" then update_total_shares p qty
            else update_total_shares p (-1 * qty)), some e)) := rfl

lemma on_trade_updates_pf (p : Position) (id side : String) (qty : ℤ) :
    on_trade_updates p ⟨"partial_fill", id, side, qty⟩ =
      (match update_filled_amount p id qty side with
       | Except.ok p2 => (p2, none)
       | Except.error e => (p, some e)) := rfl

lemma on_trade_updates_canceled (p : Position) (id side : String) (qty : ℤ) :
    on_trade_updates p ⟨"canceled", id, side, qty⟩ =
      (match remove_pending_order p id side with
       | Except.ok p2 => (p2, none)
       | Except.error e => (p, some e)) := rfl

lemma on_trade_updates_rejected (p : Position) (id side : String) (qty : ℤ) :
    on_trade_updates p ⟨"rejected", id, side, qty⟩ =
      (match remove_pending_order p id side with
       | Except.ok p2 => (p2, none)
       | Except.error e => (p, some e)) := rfl

/-- C2: `Quote.update` detects a level change iff both the bid and the ask
differ from the stored values and the new spread rounds to 0.01 at two
decimals; when the condition fails every stored field except the two sizes
is unchanged, and `bid_size`/`ask_size` are refreshed unconditionally on
every call (on a level change the bid/ask/prev/timestamp fields are
rewritten from the event). -/
theorem c2_quote_update_contract (d : SymbolDict) (q : QuoteData) :
    ((quote_update_dict d q).bid_size = q.bidsize ∧
      (quote_update_dict d q).ask_size = q.asksize) ∧
    (¬ level_change_cond d q →
      quote_update_dict d q = { d with bid_size := q.bidsize, ask_size := q.asksize }) ∧
    (level_change_cond d q →
      (quote_update_dict d q).bid = q.bidprice ∧ (quote_update_dict d q).ask = q.askprice ∧
      (quote_update_dict d q).prev_bid = d.bid ∧ (quote_update_dict d q).prev_ask = d.ask ∧
      (quote_update_dict d q).time = q.timestamp) := by
  by_cases h : level_change_cond d q
  · refine ⟨?_, fun hn => absurd h hn, fun _ => ?_⟩ <;>
    · simp only [quote_update_dict, if_pos h]
      split <;> simp [reset_dict]
  · refine ⟨?_, fun _ => ?_, fun hc => absurd hc h⟩ <;>
      simp [quote_update_dict, if_neg h]

/-- C2 witness: a quote with unchanged prices refreshes only the sizes. -/
theorem c2_quote_update_contract_witness :
    ¬ level_change_cond default_dict ⟨"A", 0, 0, 7, 8, 5⟩ ∧
    quote_update_dict default_dict ⟨"A", 0, 0, 7, 8, 5⟩ =
      { default_dict with bid_size := 7, ask_size := 8 } := by
  have hn : ¬ level_change_cond default_dict ⟨"A", 0, 0, 7, 8, 5⟩ := by
    simp [level_change_cond, default_dict]
  exact ⟨hn, (c2_quote_update_contract default_dict ⟨"A", 0, 0, 7, 8, 5⟩).2.1 hn⟩

/-- C5 counterexample: the claim says a lazily created symbol state starts
with `eligible = true`.  In fact the default dict has `traded = True`, so
the first lazily created state is not eligible; moreover a symbol created
after the shared default dict has been mutated does not even see `bid = 0`
(here `"B"`, created after a level change for `"A"`, starts at bid 10). -/
theorem c5_default_not_eligible_cx :
    eligibleOf (get_symbol_ref Quote.start "A").1 "A" = some false ∧
    (symState (get_symbol_ref c5_mut "B").1 "B").map SymbolDict.bid = some 10 := by
  constructor
  · rfl
  · norm_num [c5_mut, quote_update, get_symbol_ref, lookupSym, readDict, writeDict,
      quote_update_dict, level_change_cond, roundTo, round_eq, default_dict, symState,
      Quote.start, List.find?_cons,
      show ("A" == "B") = false from rfl, show ("B" == "B") = true from rfl,
      show ("A" == "A") = true from rfl]

/-- C5 amended: in a fresh tracker, the lazily created state of a symbol is
the pristine default dict: `bid = ask = 0`, `level_ct = 1`, and
`traded = true`, i.e. `eligible = false` — the symbol starts unable to
trade until a qualifying level change with `prev_spread = 0.01`. -/
theorem c5_lazy_default_values (s : String) :
    symState (get_symbol_ref Quote.start s).1 s = some default_dict ∧
    default_dict.bid = 0 ∧ default_dict.ask = 0 ∧ default_dict.level_ct = 1 ∧
    default_dict.traded = true ∧
    eligibleOf (get_symbol_ref Quote.start s).1 s = some false := by
  have h1 : get_symbol_ref Quote.start s =
      ({ heap := [default_dict], defaultRef := 0, symbol_dict := [(s, 0)] }, 0) := rfl
  rw [h1]
  refine ⟨?_, rfl, rfl, rfl, rfl, ?_⟩ <;>
    simp [symState, eligibleOf, lookupSym, readDict, List.find?_cons, default_dict]

/-- C7 counterexample: the claim says a `fill` event removes a fixed 100
shares from the pending counter.  For an order with 40 shares already
recorded as filled, the pending-buy counter drops from 60 to 0 — a removal
of 60, not 100. -/
theorem c7_fill_pending_cx :
    (on_trade_updates c7_pos ⟨"fill", "o1", "buy", 100⟩).1.pending_buy_shares = 0 ∧
    c7_pos.pending_buy_shares - 100 = -40 ∧
    ¬ ((on_trade_updates c7_pos ⟨"fill", "o1", "buy", 100⟩).1.pending_buy_shares
        = c7_pos.pending_buy_shares - 100) := by decide

/-- C7 amended: on a `fill` event for a registered order with `a` shares
recorded as filled so far, `total_shares` moves by the full `filled_qty`
(added for buy, subtracted for sell), the side's pending counter decreases
by `100 - a` (the order's remaining pending contribution, which equals 100
only when no partial fill preceded), and the order's ledger entry is
deleted. -/
theorem c7_fill_contract (p : Position) (id side : String) (a qty : ℤ)
    (h : ledger_find p.orders_filled_amount id = some a) :
    (on_trade_updates p ⟨"fill", id, side, qty⟩).2 = none ∧
    ledger_find (on_trade_updates p ⟨"fill", id, side, qty⟩).1.orders_filled_amount id
      = none ∧
    (side = "buy" →
      (on_trade_updates p ⟨"fill", id, side, qty⟩).1.total_shares = p.total_shares + qty ∧
      (on_trade_updates p ⟨"fill", id, side, qty⟩).1.pending_buy_shares
        = p.pending_buy_shares - (100 - a) ∧
      (on_trade_updates p ⟨"fill", id, side, qty⟩).1.pending_sell_shares
        = p.pending_sell_shares) ∧
    (side = "sell" →
      (on_trade_updates p ⟨"fill", id, side, qty⟩).1.total_shares = p.total_shares - qty ∧
      (on_trade_updates p ⟨"fill", id, side, qty⟩).1.pending_sell_shares
        = p.pending_sell_shares - (100 - a) ∧
      (on_trade_updates p ⟨"fill", id, side, qty⟩).1.pending_buy_shares
        = p.pending_buy_shares) := by
  rw [on_trade_updates_fill]
  by_cases hs : side = "buy"
  · subst hs
    rw [show (if ("buy" : String) = "buy" then update_total_shares p qty
        else update_total_shares p (-1 * qty)) = update_total_shares p qty from rfl]
    rw [remove_pending_order_found_buy (update_total_shares p qty) id a h]
    refine ⟨rfl, ?_, fun _ => ⟨rfl, ?_, rfl⟩, fun hc => absurd hc (by decide)⟩
    · show ledger_find (ledger_erase p.orders_filled_amount id) id = none
      exact ledger_find_erase _ _
    · show p.pending_buy_shares + (a - 100) = p.pending_buy_shares - (100 - a)
      omega
  · rw [show (if side = "buy" then update_total_shares p qty
        else update_total_shares p (-1 * qty)) = update_total_shares p (-1 * qty)
        from if_neg hs]
    rw [remove_pending_order_found_sell (update_total_shares p (-1 * qty)) id side a hs h]
    refine ⟨rfl, ?_, fun hc => absurd hc hs, fun _ => ⟨?_, ?_, rfl⟩⟩
    · show ledger_find (ledger_erase p.orders_filled_amount id) id = none
      exact ledger_find_erase _ _
    · show p.total_shares + -1 * qty = p.total_shares - qty
      omega
    · show p.pending_sell_shares + (a - 100) = p.pending_sell_shares - (100 - a)
      omega

/-- C7 witness: an untouched buy order (`a = 0`) filled for 100 shares. -/
theorem c7_fill_contract_witness :
    (on_trade_updates (⟨[("o2", 0)], 100, 0, 0⟩ : Position)
        ⟨"fill", "o2", "buy", 100⟩).1.total_shares = 0 + 100 ∧
    (on_trade_updates (⟨[("o2", 0)], 100, 0, 0⟩ : Position)
        ⟨"fill", "o2", "buy", 100⟩).1.pending_buy_shares = 100 - (100 - 0) := by
  have h := c7_fill_contract (⟨[("o2", 0)], 100, 0, 0⟩ : Position) "o2" "buy" 0 100 (by decide)
  exact ⟨(h.2.2.1 rfl).1, (h.2.2.1 rfl).2.1⟩

/-- C8: a `partial_fill` event on a registered order with recorded amount
`old` and new cumulative amount `qty` moves `qty - old` shares from the
side's pending counter into `total_shares` (added for buy, subtracted for
sell) and records `qty`, when `qty > old`; when `qty ≤ old` (duplicate or
out-of-order update) it is a complete no-op. -/
theorem c8_partial_fill_contract (p : Position) (id side : String) (old qty : ℤ)
    (h : ledger_find p.orders_filled_amount id = some old) :
    (old < qty →
      ledger_find (on_trade_updates p ⟨"partial_fill", id, side, qty⟩).1.orders_filled_amount
        id = some qty ∧
      (side = "buy" →
        (on_trade_updates p ⟨"partial_fill", id, side, qty⟩).1.total_shares
          = p.total_shares + (qty - old) ∧
        (on_trade_updates p ⟨"partial_fill", id, side, qty⟩).1.pending_buy_shares
          = p.pending_buy_shares - (qty - old) ∧
        (on_trade_updates p ⟨"partial_fill", id, side, qty⟩).1.pending_sell_shares
          = p.pending_sell_shares) ∧
      (side = "sell" →
        (on_trade_updates p ⟨"partial_fill", id, side, qty⟩).1.total_shares
          = p.total_shares - (qty - old) ∧
        (on_trade_updates p ⟨"partial_fill", id, side, qty⟩).1.pending_sell_shares
          = p.pending_sell_shares - (qty - old) ∧
        (on_trade_updates p ⟨"partial_fill", id, side, qty⟩).1.pending_buy_shares
          = p.pending_buy_shares)) ∧
    (qty ≤ old → (on_trade_updates p ⟨"partial_fill", id, side, qty⟩).1 = p) := by
  rw [on_trade_updates_pf]
  by_cases hs : side = "buy"
  · subst hs
    rw [update_filled_amount_found_buy p id old qty h]
    constructor
    · intro hlt
      rw [if_pos hlt]
      refine ⟨?_, fun _ => ⟨?_, ?_, rfl⟩, fun hc => absurd hc (by decide)⟩
      · show ledger_find (ledger_set p.orders_filled_amount id qty) id = some qty
        exact ledger_find_set _ _ _
      · show p.total_shares + (qty - old) = p.total_shares + (qty - old); rfl
      · show p.pending_buy_shares + (old - qty) = p.pending_buy_shares - (qty - old); omega
    · intro hle
      rw [if_neg (by omega : ¬ old < qty)]
  · rw [update_filled_amount_found_sell p id side old qty hs h]
    constructor
    · intro hlt
      rw [if_pos hlt]
      refine ⟨?_, fun hc => absurd hc hs, fun _ => ⟨?_, ?_, rfl⟩⟩
      · show ledger_find (ledger_set p.orders_filled_amount id qty) id = some qty
        exact ledger_find_set _ _ _
      · show p.total_shares + (old - qty) = p.total_shares - (qty - old); omega
      · show p.pending_sell_shares + (old - qty) = p.pending_sell_shares - (qty - old); omega
    · intro hle
      rw [if_neg (by omega : ¬ old < qty)]

/-- C8 witness: recorded 40, update to 70 — `total_shares` gains 30; a
duplicate update to 40 would be a no-op. -/
theorem c8_partial_fill_contract_witness :
    (on_trade_updates (⟨[("o1", 40)], 60, 0, 40⟩ : Position)
        ⟨"partial_fill", "o1", "buy", 70⟩).1.total_shares = 40 + (70 - 40) ∧
    (on_trade_updates (⟨[("o1", 40)], 60, 0, 40⟩ : Position)
        ⟨"partial_fill", "o1", "buy", 40⟩).1 = (⟨[("o1", 40)], 60, 0, 40⟩ : Position) := by
  constructor
  · exact (((c8_partial_fill_contract (⟨[("o1", 40)], 60, 0, 40⟩ : Position) "o1" "buy" 40 70
      (by decide)).1 (by decide)).2.1 rfl).1
  · exact (c8_partial_fill_contract (⟨[("o1", 40)], 60, 0, 40⟩ : Position) "o1" "buy" 40 40
      (by decide)).2 (by decide)

/-- C9 counterexample: the claim says an order update with an unknown id is
surfaced as an error and the failure is confined to that update.  For a
`fill` event the error is raised, but only after `total_shares` has already
been mutated: the failing update leaves `total_shares` changed from 0 to
100. -/
theorem c9_unknown_fill_mutates_cx :
    (on_trade_updates Position.start ⟨"fill", "x", "buy", 100⟩).2 = some "KeyError" ∧
    (on_trade_updates Position.start ⟨"fill", "x", "buy", 100⟩).1.total_shares = 100 ∧
    Position.start.total_shares = 0 := by decide

/-- C9 amended: an order update (`fill`, `partial_fill`, `canceled` or
`rejected`) whose order id is absent from the ledger raises `KeyError`
(never a silent no-op); for `partial_fill`, `canceled` and `rejected` the
position is unchanged, but for `fill` the `total_shares` adjustment made
before the failing lookup persists. -/
theorem c9_unknown_order_error (p : Position) (d : OrderUpdateData)
    (h : ledger_find p.orders_filled_amount d.order_id = none) :
    (d.event = "fill" →
      (on_trade_updates p d).2 = some "KeyError" ∧
      (on_trade_updates p d).1
        = update_total_shares p (if d.side = "buy" then d.filled_qty else -1 * d.filled_qty)) ∧
    ((d.event = "partial_fill" ∨ d.event = "canceled" ∨ d.event = "rejected") →
      (on_trade_updates p d).2 = some "KeyError" ∧ (on_trade_updates p d).1 = p) := by
  obtain ⟨ev, oid, sd, fq⟩ := d
  simp only at h ⊢
  constructor
  · intro hev
    subst hev
    rw [on_trade_updates_fill]
    by_cases hs : sd = "buy"
    · subst hs
      rw [show (if ("buy" : String) = "buy" then update_total_shares p fq
          else update_total_shares p (-1 * fq)) = update_total_shares p fq from rfl]
      rw [remove_pending_order_missing (update_total_shares p fq) oid "buy" h]
      exact ⟨rfl, rfl⟩
    · rw [show (if sd = "buy" then update_total_shares p fq
          else update_total_shares p (-1 * fq)) = update_total_shares p (-1 * fq)
          from if_neg hs]
      rw [remove_pending_order_missing (update_total_shares p (-1 * fq)) oid sd h]
      rw [show (if sd = "buy" then fq else -1 * fq) = -1 * fq from if_neg hs]
      exact ⟨rfl, rfl⟩
  · intro hev
    rcases hev with hev | hev | hev <;> subst hev
    · rw [on_trade_updates_pf, update_filled_amount_missing p oid sd fq h]
      exact ⟨rfl, rfl⟩
    · rw [on_trade_updates_canceled, remove_pending_order_missing p oid sd h]
      exact ⟨rfl, rfl⟩
    · rw [on_trade_updates_rejected, remove_pending_order_missing p oid sd h]
      exact ⟨rfl, rfl⟩

/-- C9 witness: an unknown order id on a `canceled` event errors and leaves
the position unchanged. -/
theorem c9_unknown_order_error_witness :
    (on_trade_updates Position.start ⟨"canceled", "y", "sell", 0⟩).2 = some "KeyError" ∧
    (on_trade_updates Position.start ⟨"canceled", "y", "sell", 0⟩).1 = Position.start := by
  exact (c9_unknown_order_error Position.start ⟨"canceled", "y", "sell", 0⟩ (by decide)).2
    (Or.inr (Or.inl rfl))

lemma get_symbol_ref_found (q : Quote) (s : String) (r : ℕ)
    (h : lookupSym q s = some r) : get_symbol_ref q s = (q, r) := by
  unfold get_symbol_ref
  rw [h]

lemma on_trade_found (q : Quote) (pos : Position) (max_shares : ℤ) (gw : GatewayOutcome)
    (d : TradeData) (r : ℕ) (hreg : lookupSym q d.symbol = some r) :
    on_trade q pos max_shares gw d =
      (if (readDict q r).traded then ⟨q, pos, none⟩
       else if d.timestamp ≤ (readDict q r).time + 50 then ⟨q, pos, none⟩
       else if 100 ≤ d.size then
         if buy_cond (readDict q r) pos max_shares d then
           match gw with
           | GatewayOutcome.ok oid =>
               ⟨writeDict q r { readDict q r with traded := true },
                 register_order pos oid "buy", some ⟨"buy", 100, (readDict q r).ask⟩⟩
           | GatewayOutcome.submitFail => ⟨q, pos, some ⟨"buy", 100, (readDict q r).ask⟩⟩
           | GatewayOutcome.cancelFail _ => ⟨q, pos, some ⟨"buy", 100, (readDict q r).ask⟩⟩
         else if sell_cond (readDict q r) pos d then
           match gw with
           | GatewayOutcome.ok oid =>
               ⟨writeDict q r { readDict q r with traded := true },
                 register_order pos oid "sell", some ⟨"sell", 100, (readDict q r).bid⟩⟩
           | GatewayOutcome.submitFail => ⟨q, pos, some ⟨"sell", 100, (readDict q r).bid⟩⟩
           | GatewayOutcome.cancelFail _ => ⟨q, pos, some ⟨"sell", 100, (readDict q r).bid⟩⟩
         else ⟨q, pos, none⟩
       else ⟨q, pos, none⟩) := by
  unfold on_trade
  rw [get_symbol_ref_found q d.symbol r hreg]

/-- C3: `on_trade` is a silent no-op (no submit call, tracker and position
untouched) when the symbol is not eligible, or the trade is within 50ms of
the last level change, or the trade size is below 100; otherwise a buy of
one 100-share lot at the stored ask is attempted iff the trade is at the
ask with `bid_size > ask_size * 1.8` and room under the cap, and a sell at
the stored bid is attempted iff the buy gate fails and the trade is at the
bid with `ask_size > bid_size * 1.8` and at least 100 unencumbered shares;
the single `Option`-valued submit slot records that at most one order is
attempted per trade event. -/
theorem c3_on_trade_gating (q : Quote) (pos : Position) (max_shares : ℤ)
    (gw : GatewayOutcome) (d : TradeData) (r : ℕ)
    (hreg : lookupSym q d.symbol = some r) :
    ((readDict q r).traded = true ∨ d.timestamp ≤ (readDict q r).time + 50 ∨ d.size < 100 →
      on_trade q pos max_shares gw d = ⟨q, pos, none⟩) ∧
    ((readDict q r).traded = false → (readDict q r).time + 50 < d.timestamp → 100 ≤ d.size →
      ((on_trade q pos max_shares gw d).attempt = some ⟨"buy", 100, (readDict q r).ask⟩ ↔
        buy_cond (readDict q r) pos max_shares d) ∧
      ((on_trade q pos max_shares gw d).attempt = some ⟨"sell", 100, (readDict q r).bid⟩ ↔
        ¬ buy_cond (readDict q r) pos max_shares d ∧ sell_cond (readDict q r) pos d)) := by
  rw [on_trade_found q pos max_shares gw d r hreg]
  constructor
  · rintro (ht | ht | ht)
    · rw [if_pos ht]
    · by_cases htr : (readDict q r).traded = true
      · rw [if_pos htr]
      · rw [if_neg htr, if_pos ht]
    · by_cases htr : (readDict q r).traded = true
      · rw [if_pos htr]
      · rw [if_neg htr]
        by_cases hts : d.timestamp ≤ (readDict q r).time + 50
        · rw [if_pos hts]
        · rw [if_neg hts, if_neg (by omega : ¬ 100 ≤ d.size)]
  · intro htr hts hsz
    rw [if_neg (by simp [htr]), if_neg (by omega : ¬ d.timestamp ≤ (readDict q r).time + 50),
      if_pos hsz]
    by_cases hb : buy_cond (readDict q r) pos max_shares d
    · rw [if_pos hb]
      refine ⟨⟨fun _ => hb, fun _ => ?_⟩, ⟨fun hat => ?_, fun hc => absurd hb hc.1⟩⟩
      · cases gw <;> rfl
      · cases gw <;> simp at hat
    · rw [if_neg hb]
      by_cases hse : sell_cond (readDict q r) pos d
      · rw [if_pos hse]
        refine ⟨⟨fun hat => ?_, fun hbc => absurd hbc hb⟩, ⟨fun _ => ⟨hb, hse⟩, fun _ => ?_⟩⟩
        · cases gw <;> simp at hat
        · cases gw <;> rfl
      · rw [if_neg hse]
        refine ⟨⟨fun hat => ?_, fun hbc => absurd hbc hb⟩,
          ⟨fun hat => ?_, fun hc => absurd hc.2 hse⟩⟩
        · simp at hat
        · simp at hat

/-- C3 witness: on the armed state, a large trade at the ask 100ms after the
level change with a bid-heavy book attempts a buy. -/
theorem c3_on_trade_gating_witness :
    (on_trade armed_quote Position.start 500 (GatewayOutcome.ok "o1") big_trade).attempt
      = some ⟨"buy", 100, (readDict armed_quote 0).ask⟩ := by
  have h := (c3_on_trade_gating armed_quote Position.start 500 (GatewayOutcome.ok "o1")
    big_trade 0 (by rfl)).2 (by rfl)
    (by norm_num [readDict, armed_quote, armed_dict, big_trade])
    (by norm_num [big_trade])
  exact h.1.mpr
    (by norm_num [buy_cond, readDict, armed_quote, armed_dict, big_trade, Position.start])

/-- C6 counterexample: the claim says that after a successful submit with a
failed cancel, `eligible` is left false and the pending counter left
incremented.  In the source the pending/ledger/`traded` updates come after
the cancel call, so the raised exception skips them: the submit happened
(`attempt` is a buy), yet pending stays 0 and the symbol stays eligible. -/
theorem c6_cancel_fail_cx :
    (on_trade armed_quote Position.start 500 (GatewayOutcome.cancelFail "o1")
        big_trade).attempt = some ⟨"buy", 100, (10.02 : ℚ)⟩ ∧
    (on_trade armed_quote Position.start 500 (GatewayOutcome.cancelFail "o1")
        big_trade).position.pending_buy_shares = 0 ∧
    eligibleOf (on_trade armed_quote Position.start 500 (GatewayOutcome.cancelFail "o1")
        big_trade).quote "A" = some true := by
  norm_num [on_trade, get_symbol_ref, lookupSym, readDict, armed_quote, armed_dict,
    big_trade, buy_cond, Position.start, eligibleOf, List.find?_cons,
    show ("A" == "A") = true from rfl]

/-- C6 amended: when the submit succeeds but the cancel raises, the caught
exception skips every update that follows the cancel in the `try` block:
the tracker is unchanged (the symbol stays eligible), the position is
unchanged (no pending increment, no ledger entry), even though the submit
call was issued. -/
theorem c6_cancel_fail_state_unchanged (q : Quote) (pos : Position) (max_shares : ℤ)
    (d : TradeData) (r : ℕ) (oid : String)
    (hreg : lookupSym q d.symbol = some r)
    (htr : (readDict q r).traded = false)
    (hts : (readDict q r).time + 50 < d.timestamp)
    (hsz : 100 ≤ d.size)
    (hcond : buy_cond (readDict q r) pos max_shares d ∨ sell_cond (readDict q r) pos d) :
    (on_trade q pos max_shares (GatewayOutcome.cancelFail oid) d).quote = q ∧
    (on_trade q pos max_shares (GatewayOutcome.cancelFail oid) d).position = pos ∧
    (on_trade q pos max_shares (GatewayOutcome.cancelFail oid) d).attempt ≠ none := by
  rw [on_trade_found q pos max_shares _ d r hreg]
  rw [if_neg (by simp [htr]), if_neg (by omega : ¬ d.timestamp ≤ (readDict q r).time + 50),
    if_pos hsz]
  by_cases hb : buy_cond (readDict q r) pos max_shares d
  · rw [if_pos hb]
    exact ⟨rfl, rfl, by simp⟩
  · rcases hcond with hc | hc
    · exact absurd hc hb
    · rw [if_neg hb, if_pos hc]
      exact ⟨rfl, rfl, by simp⟩

/-- C6 witness: the armed scenario with a failing cancel leaves tracker and
position exactly as they were. -/
theorem c6_cancel_fail_state_unchanged_witness :
    (on_trade armed_quote Position.start 500 (GatewayOutcome.cancelFail "o1")
        big_trade).position = Position.start ∧
    (on_trade armed_quote Position.start 500 (GatewayOutcome.cancelFail "o1")
        big_trade).quote = armed_quote := by
  have h := c6_cancel_fail_state_unchanged armed_quote Position.start 500 big_trade 0 "o1"
    (by rfl) (by rfl) (by norm_num [readDict, armed_quote, armed_dict, big_trade])
    (by norm_num [big_trade])
    (Or.inl (by norm_num [buy_cond, readDict, armed_quote, armed_dict, big_trade,
      Position.start]))
  exact ⟨h.2.1, h.1⟩

lemma register_order_buy (p : Position) (oid : String) :
    register_order p oid "buy" =
      ⟨ledger_set p.orders_filled_amount oid 0, p.pending_buy_shares + 100,
        p.pending_sell_shares, p.total_shares⟩ := rfl

lemma register_order_other (p : Position) (oid side : String) (hs : ¬ side = "buy") :
    register_order p oid side =
      ⟨ledger_set p.orders_filled_amount oid 0, p.pending_buy_shares,
        p.pending_sell_shares + 100, p.total_shares⟩ := by
  unfold register_order
  simp only [if_neg hs]
  rfl

lemma pfill_step_state (p : Position) (oid side : String) (a x : ℤ)
    (h : ledger_find p.orders_filled_amount oid = some a) :
    ∃ c, ledger_find
        (on_trade_updates p ⟨"partial_fill", oid, side, x⟩).1.orders_filled_amount oid
        = some c ∧
      pendingSide (on_trade_updates p ⟨"partial_fill", oid, side, x⟩).1 side
        = pendingSide p side - (c - a) := by
  rw [on_trade_updates_pf]
  by_cases hs : side = "buy"
  · subst hs
    rw [update_filled_amount_found_buy p oid a x h]
    by_cases hlt : a < x
    · rw [if_pos hlt]
      refine ⟨x, ledger_find_set _ _ _, ?_⟩
      show p.pending_buy_shares + (a - x) = p.pending_buy_shares - (x - a)
      omega
    · rw [if_neg hlt]
      refine ⟨a, h, ?_⟩
      show pendingSide p "buy" = pendingSide p "buy" - (a - a)
      omega
  · rw [update_filled_amount_found_sell p oid side a x hs h]
    by_cases hlt : a < x
    · rw [if_pos hlt]
      refine ⟨x, ledger_find_set _ _ _, ?_⟩
      simp only [pendingSide, if_neg hs]
      show p.pending_sell_shares + (a - x) = p.pending_sell_shares - (x - a)
      omega
    · rw [if_neg hlt]
      refine ⟨a, h, ?_⟩
      show pendingSide p side = pendingSide p side - (a - a)
      omega

lemma pfill_run_invariant (oid side : String) (qtys : List ℤ) :
    ∀ (p : Position) (a : ℤ), ledger_find p.orders_filled_amount oid = some a →
      ∃ b, ledger_find
          (apply_updates p (pfill_events oid side qtys)).orders_filled_amount oid = some b ∧
        pendingSide (apply_updates p (pfill_events oid side qtys)) side
          = pendingSide p side - (b - a) := by
  induction qtys with
  | nil =>
    intro p a h
    refine ⟨a, h, ?_⟩
    simp only [pfill_events, List.map_nil, apply_updates, List.foldl_nil]
    omega
  | cons x tl ih =>
    intro p a h
    obtain ⟨c, hc1, hc2⟩ := pfill_step_state p oid side a x h
    obtain ⟨b, hb1, hb2⟩ := ih ((on_trade_updates p ⟨"partial_fill", oid, side, x⟩).1) c hc1
    have hstep : apply_updates p (pfill_events oid side (x :: tl))
        = apply_updates ((on_trade_updates p ⟨"partial_fill", oid, side, x⟩).1)
            (pfill_events oid side tl) := rfl
    refine ⟨b, ?_, ?_⟩
    · rw [hstep]
      exact hb1
    · rw [hstep, hb2, hc2]
      omega

lemma remove_pending_terminal (p : Position) (oid side : String) (b fq : ℤ) (evt : String)
    (hevt : evt = "fill" ∨ evt = "canceled" ∨ evt = "rejected")
    (h : ledger_find p.orders_filled_amount oid = some b) :
    pendingSide (on_trade_updates p ⟨evt, oid, side, fq⟩).1 side
      = pendingSide p side + (b - 100) := by
  rcases hevt with hevt | hevt | hevt <;> subst hevt
  · rw [on_trade_updates_fill]
    by_cases hs : side = "buy"
    · subst hs
      rw [show (if ("buy" : String) = "buy" then update_total_shares p fq
          else update_total_shares p (-1 * fq)) = update_total_shares p fq from rfl]
      rw [remove_pending_order_found_buy (update_total_shares p fq) oid b h]
      rfl
    · rw [show (if side = "buy" then update_total_shares p fq
          else update_total_shares p (-1 * fq)) = update_total_shares p (-1 * fq)
          from if_neg hs]
      rw [remove_pending_order_found_sell (update_total_shares p (-1 * fq)) oid side b hs h]
      simp only [pendingSide, if_neg hs]
      rfl
  · rw [on_trade_updates_canceled]
    by_cases hs : side = "buy"
    · subst hs
      rw [remove_pending_order_found_buy p oid b h]
      rfl
    · rw [remove_pending_order_found_sell p oid side b hs h]
      simp only [pendingSide, if_neg hs]
  · rw [on_trade_updates_rejected]
    by_cases hs : side = "buy"
    · subst hs
      rw [remove_pending_order_found_buy p oid b h]
      rfl
    · rw [remove_pending_order_found_sell p oid side b hs h]
      simp only [pendingSide, if_neg hs]

/-- C10: register an order (pending +100, recorded filled 0), apply any
sequence of `partial_fill` events with non-decreasing cumulative quantities
bounded by the 100-share lot, then one terminal event (`fill`, `canceled`
or `rejected`): the side's pending counter returns exactly to its value
before the submission, because the terminal removal subtracts
`100 - filledSoFar`, not a fixed 100. -/
theorem c10_pending_conservation (p : Position) (oid side : String) (qtys : List ℤ)
    (evt : String) (fq : ℤ)
    (hmono : List.Chain' (fun a b => a ≤ b) qtys)
    (hbound : ∀ x ∈ qtys, x ≤ 100)
    (hevt : evt = "fill" ∨ evt = "canceled" ∨ evt = "rejected") :
    pendingSide ((on_trade_updates
        (apply_updates (register_order p oid side) (pfill_events oid side qtys))
        ⟨evt, oid, side, fq⟩).1) side = pendingSide p side := by
  have hreg1 : ledger_find (register_order p oid side).orders_filled_amount oid
      = some 0 := by
    by_cases hs : side = "buy"
    · subst hs
      rw [register_order_buy]
      exact ledger_find_set _ _ _
    · rw [register_order_other p oid side hs]
      exact ledger_find_set _ _ _
  have hreg2 : pendingSide (register_order p oid side) side = pendingSide p side + 100 := by
    by_cases hs : side = "buy"
    · subst hs
      rw [register_order_buy]
      rfl
    · rw [register_order_other p oid side hs]
      simp only [pendingSide, if_neg hs]
  obtain ⟨b, hb1, hb2⟩ := pfill_run_invariant oid side qtys (register_order p oid side) 0 hreg1
  rw [remove_pending_terminal _ oid side b fq evt hevt hb1, hb2, hreg2]
  omega

/-- C10 witness: a buy order partially filled 40 then 70, then filled:
pending-buy returns to 0. -/
theorem c10_pending_conservation_witness :
    pendingSide ((on_trade_updates
        (apply_updates (register_order Position.start "o1" "buy")
          (pfill_events "o1" "buy" [40, 70]))
        ⟨"fill", "o1", "buy", 100⟩).1) "buy" = pendingSide Position.start "buy" := by
  exact c10_pending_conservation Position.start "o1" "buy" [40, 70] "fill" 100
    (by norm_num [List.chain'_cons, List.chain'_singleton]) (by decide) (Or.inl rfl)

/-- C1 (code bug witness): after two qualifying level changes for `"A"` and
a lazy registration of `"B"`, both symbols alias the same dict, so `"B"` is
eligible; the next event is a trade for `"A"` with a successful submission,
and it flips the eligibility flag of `"B"` to false even though no order
for `"B"` was submitted — every trade event in the stream is for `"A"`. -/
theorem c1_eligible_cross_symbol_flip :
    eligibleOf (run_events 500 SysState.start c1_events).quote "B" = some true ∧
    eligibleOf (run_events 500 SysState.start (c1_events ++ [c1_trade])).quote "B"
      = some false ∧
    ((c1_events ++ [c1_trade]).all fun e =>
      match e with
      | Event.trade td _ => td.symbol == "A"
      | _ => true) = true := by
  refine ⟨?_, ?_, rfl⟩ <;>
    norm_num [c1_events, c1_trade, run_events, step, quote_update, get_symbol_ref, lookupSym,
      readDict, writeDict, quote_update_dict, level_change_cond, roundTo, round_eq,
      default_dict, eligibleOf, Quote.start, SysState.start, Position.start, List.find?,
      on_trade, buy_cond, sell_cond, register_order, reset_dict,
      show ("A" == "B") = false from rfl, show ("B" == "A") = false from rfl,
      show ("A" == "A") = true from rfl, show ("B" == "B") = true from rfl]

/-- C4 (code bug witness): both `"A"` and `"B"` are registered with the same
reference 0 (the shared default dict), and a qualifying quote update for
`"A"` alone changes the stored bid of `"B"` from 10 to 10.01. -/
theorem c4_shared_state_mutation :
    lookupSym c4_pre "A" = some 0 ∧ lookupSym c4_pre "B" = some 0 ∧
    (symState c4_pre "B").map SymbolDict.bid = some 10 ∧
    (symState c4_post "B").map SymbolDict.bid = some 10.01 ∧
    c4_probe.symbol = "A" := by
  refine ⟨?_, ?_, ?_, ?_, rfl⟩ <;>
    norm_num [c4_pre, c4_post, c4_probe, quote_update, get_symbol_ref, lookupSym,
      readDict, writeDict, quote_update_dict, level_change_cond, roundTo, round_eq,
      default_dict, symState, Quote.start, List.find?, reset_dict,
      show ("A" == "B") = false from rfl, show ("B" == "A") = false from rfl,
      show ("A" == "A") = true from rfl, show ("B" == "B") = true from rfl]

end TickTaker
